import Mathlib

/-!
Verification of the NMR metabolite-library viewer (src/app.py) against its
specification.  The Python source is shallowly embedded: floats are modelled
as exact rationals, pandas data frames as lists of records, and fallible
operations (CSV reading, float parsing) as Except values.  Each definition
is translated from the source; the one spec-side definition used for a
refinement comparison is named with a Spec prefix.
-/

namespace NmrApp

/-- One row of the HMDB reference table (the columns read by app.py).
Fields mirror the CSV columns Name, HMDB_ID, CAS, Formula, ppm_list,
predicted_ppm; ppm_list is kept raw (a delimited text field), exactly as the
code re-parses it per matching call via str(row["ppm_list"]).split(";"). -/
structure RefRow where
  name : String
  hmdbId : String
  cas : String
  formula : String
  ppm_list : String
  predicted_ppm : String
deriving DecidableEq

/-- Splits a character list at every occurrence of sep, modelling the Python
str.split(sep) semantics: n separators yield n+1 parts and the empty string
yields a single empty part. -/
def splitChar (sep : Char) : List Char → List (List Char)
  | [] => [[]]
  | c :: cs =>
      match splitChar sep cs with
      | [] => [[]]
      | t :: ts => if c = sep then [] :: t :: ts else (c :: t) :: ts

/-- Numeric value of a decimal digit character. -/
def digitVal (c : Char) : ℕ := c.toNat - Char.toNat '0'

/-- Value of a list of decimal digit characters, most significant first. -/
def decValue (l : List Char) : ℕ := l.foldl (fun a c => 10 * a + digitVal c) 0

/-- Models the Python float(x) constructor on the fragment the reference
table uses: an optional sign, decimal digits and at most one decimal point
(float accepts "1.", ".5" but rejects "", ".", "abc", "1.2.3").  Exponents,
inf and nan are outside the modelled fragment.  Returns none exactly where
float(x) raises ValueError; the value is the exact rational denoted by the
literal. -/
def parseFloat (l : List Char) : Option ℚ :=
  let sb : ℚ × List Char :=
    match l with
    | '-' :: t => (-1, t)
    | '+' :: t => (1, t)
    | t => (1, t)
  match splitChar '.' sb.2 with
  | [i] =>
      if !i.isEmpty && i.all Char.isDigit then some (sb.1 * decValue i) else none
  | [i, f] =>
      if !(i ++ f).isEmpty && (i ++ f).all Char.isDigit then
        some (sb.1 * ((decValue i : ℚ) + (decValue f : ℚ) / (10 : ℚ) ^ f.length))
      else none
  | _ => none

/-- Parses a list of tokens left to right, modelling the comprehension
[float(x) for x in tokens]: the first token on which float raises aborts the
whole comprehension, and the error carries that token. -/
def parseTokens : List (List Char) → Except String (List ℚ)
  | [] => .ok []
  | t :: ts =>
      match parseFloat t with
      | none => .error (String.mk t)
      | some q =>
          match parseTokens ts with
          | .error e => .error e
          | .ok qs => .ok (q :: qs)

/-- Models line 52 of app.py: [float(x) for x in str(row["ppm_list"]).split(";")].
The field is already text, so str() is the identity. -/
def parsePpmList (s : String) : Except String (List ℚ) :=
  parseTokens (splitChar ';' s.data)

/-- Python abs on the rational model. -/
def absq (q : ℚ) : ℚ := if q < 0 then -q else q

/-- Models line 53 of app.py:
matches = sum(any(abs(sp - hp) <= tol for hp in hmdb_peaks) for sp in sample_peaks):
the number of sample peaks having at least one reference peak within
tolerance. -/
def matchCount (sample_peaks hmdb_peaks : List ℚ) (tol : ℚ) : ℕ :=
  (sample_peaks.filter
    (fun sp => hmdb_peaks.any (fun hp => decide (absq (sp - hp) ≤ tol)))).length

/-- Models line 54 of app.py:
score = matches / len(hmdb_peaks) if hmdb_peaks else 0.
The Python conditional tests list truthiness, so the division runs exactly
when the parsed peak list is nonempty. -/
def scoreOf (sample_peaks hmdb_peaks : List ℚ) (tol : ℚ) : ℚ :=
  if hmdb_peaks.isEmpty then 0
  else (matchCount sample_peaks hmdb_peaks tol : ℚ) / (hmdb_peaks.length : ℚ)

/-- Round half to even on rationals, the semantics of the Python builtin
round applied to an exactly representable value (the float representation
error of the CPython builtin is abstracted away by the rational model). -/
def pyRound (q : ℚ) : ℤ :=
  if q - ⌊q⌋ = 1 / 2 then (if 2 ∣ ⌊q⌋ then ⌊q⌋ else ⌊q⌋ + 1) else round q

/-- Models round(score, 3) from line 60 of app.py. -/
def round3 (q : ℚ) : ℚ := (pyRound (q * 1000) : ℚ) / 1000

/-- One row of the results DataFrame built in lines 55-65 of app.py. -/
structure MatchResult where
  metabolite : String
  hmdbId : String
  cas : String
  formula : String
  matchScore : ℚ
  hmdbPeaks : String
  predictedPeaks : String
  structureUrl : String
  link : String
deriving DecidableEq

/-- The body of the loop on lines 51-65 of app.py for one reference row:
parse the delimited peak field, score it against the sample and build the
result record.  A ValueError from float propagates out, modelled by the
error branch. -/
def matchRowResult (sample_peaks : List ℚ) (tol : ℚ) (row : RefRow) :
    Except String MatchResult :=
  match parsePpmList row.ppm_list with
  | .error t => .error t
  | .ok hmdb_peaks =>
      .ok { metabolite := row.name
            hmdbId := row.hmdbId
            cas := row.cas
            formula := row.formula
            matchScore := round3 (scoreOf sample_peaks hmdb_peaks tol)
            hmdbPeaks := row.ppm_list
            predictedPeaks := row.predicted_ppm
            structureUrl := "https://hmdb.ca/metabolites/" ++ row.hmdbId ++ ".png"
            link := "https://hmdb.ca/metabolites/" ++ row.hmdbId }

/-- The whole loop of lines 48-65: results are accumulated in reference-table
order and an exception raised on any row aborts the entire call. -/
def matchRows (sample_peaks : List ℚ) (tol : ℚ) :
    List RefRow → Except String (List MatchResult)
  | [] => .ok []
  | row :: rows =>
      match matchRowResult sample_peaks tol row with
      | .error e => .error e
      | .ok r =>
          match matchRows sample_peaks tol rows with
          | .error e => .error e
          | .ok rs => .ok (r :: rs)

/-- Models line 68 of app.py,
results_df.sort_values("Match score", ascending=False): pandas computes an
ascending argsort of the column (numpy kind quicksort, which is insertion
sort and hence stable on the small arrays modelled here) and then reverses
the indexer, so descending output lists tied scores in reverse of their
input order. -/
def sortByScoreDesc (rs : List MatchResult) : List MatchResult :=
  (List.insertionSort (fun a b => a.matchScore ≤ b.matchScore) rs).reverse

/-- Models match_to_hmdb (lines 46-68 of app.py) on the data it reads: the
sample frame contributes only its ppm column and the reference frame its
rows.  Returns the sorted results, or the first parse error raised inside
the loop. -/
def match_to_hmdb (sample_df : List ℚ) (hmdb_df : List RefRow) (tol : ℚ) :
    Except String (List MatchResult) :=
  match matchRows sample_df tol hmdb_df with
  | .error e => .error e
  | .ok results => .ok (sortByScoreDesc results)

/-- The outcomes of reading the reference CSV, the effect of pd.read_csv made
explicit: success with the parsed rows, or one of the exception classes the
call can raise.  FileNotFoundError is the only class the loader catches;
unreadability for other reasons is represented by the other constructors. -/
inductive ReadError
  | fileNotFound
  | permissionDenied
  | malformedCsv
deriving DecidableEq

/-- Models load_hmdb (lines 9-16 of app.py) with the read outcome passed in
explicitly: try pd.read_csv, return the frame on success, return None on
FileNotFoundError, and let every other exception propagate (modelled by the
error result). -/
def load_hmdb (readResult : Except ReadError (List RefRow)) :
    Except ReadError (Option (List RefRow)) :=
  match readResult with
  | .ok df => .ok (some df)
  | .error .fileNotFound => .ok none
  | .error e => .error e

/-- Lowercased character list of a string, modelling the case folding that
case=False applies before comparison (ASCII data in this table). -/
def strLower (s : String) : List Char := s.data.map Char.toLower

/-- Matcher for the fragment of Python regular expressions exercised by the
reference table UI: a pattern character that is a dot matches any text
character, every other pattern character matches itself.  True when the
pattern matches a prefix of the text. -/
def reMatchHere : List Char → List Char → Bool
  | [], _ => true
  | _ :: _, [] => false
  | p :: ps, c :: cs => (p == '.' || p == c) && reMatchHere ps cs

/-- Unanchored regex search, modelling re.search: the pattern may match at
any start position in the text. -/
def reSearch (pat : List Char) : List Char → Bool
  | [] => reMatchHere pat []
  | c :: cs => reMatchHere pat (c :: cs) || reSearch pat cs

/-- Models Series.str.contains(search_name, case=False, na=False) from line
27 of app.py applied to one name: pandas treats the search string as a
regular expression (regex=True is the default) and searches unanchored,
ignoring case. -/
def nameContains (name pattern : String) : Bool :=
  reSearch (strLower pattern) (strLower name)

/-- The row filter of line 27 of app.py. -/
def searchMatches (hmdb_df : List RefRow) (search_name : String) : List RefRow :=
  hmdb_df.filter (fun row => nameContains row.name search_name)

/-- What the sidebar search block (lines 26-37) displays. -/
inductive SearchOutcome
  | skipped
  | found (rows : List RefRow)
  | notFoundWarning
deriving DecidableEq

/-- Models lines 26-37 of app.py: the block runs only when the search string
is truthy (nonempty) and the reference table loaded; an empty filter result
surfaces the warning notice. -/
def searchBox (search_name : String) (hmdb? : Option (List RefRow)) :
    SearchOutcome :=
  if search_name = "" then .skipped
  else
    match hmdb? with
    | none => .skipped
    | some df =>
        if (searchMatches df search_name).isEmpty then .notFoundWarning
        else .found (searchMatches df search_name)

deriving instance DecidableEq for Except

/-- What the HMDB comparison block (lines 133-151) does after a sample file
was accepted. -/
inductive CompareOutcome
  | resultsShown (rs : Except String (List MatchResult))
  | noHmdbWarning
deriving DecidableEq

/-- Models lines 133-151 of app.py: with a loaded reference table the matcher
runs and its results are rendered; with none, only the warning about the
missing hmdb_reference.csv is shown. -/
def hmdbComparisonBranch (hmdb? : Option (List RefRow)) (sample_peaks : List ℚ)
    (tol : ℚ) : CompareOutcome :=
  match hmdb? with
  | some df => .resultsShown (match_to_hmdb sample_peaks df tol)
  | none => .noHmdbWarning

/-- The accepted shift-column aliases, line 113 of app.py. -/
def possible_ppm_cols : List String := ["ppm", "Shift", "Chemical Shift"]

/-- Models line 114 of app.py: the first column of the uploaded frame that is
one of the accepted aliases. -/
def detectPpmCol (cols : List String) : Option String :=
  cols.find? (fun c => possible_ppm_cols.contains c)

/-- Outcome of the shift-column check on an uploaded file: either the error
message is shown and nothing further runs, or processing continues on the
renamed columns (display, plot, J table, HMDB comparison). -/
inductive UploadOutcome
  | rejected (msg : String)
  | processed (cols : List String)
deriving DecidableEq

/-- The error message of line 116 of app.py (quotation marks of the UI text
elided). -/
def missingPpmColMsg : String :=
  "Uploaded CSV is missing required column: ppm or equivalent (Shift, Chemical Shift)."

/-- Models lines 112-118 of app.py: reject the upload with the descriptive
message when no alias column exists, otherwise rename the detected column to
the canonical ppm (DataFrame.rename maps every column equal to it) and
continue. -/
def ppmColumnStep (cols : List String) : UploadOutcome :=
  match detectPpmCol cols with
  | none => .rejected missingPpmColMsg
  | some c => .processed (cols.map (fun x => if x = c then "ppm" else x))

end NmrApp

section

attribute [local semireducible] Rat.add Rat.mul Rat.inv Rat.sub Rat.ofScientific

open NmrApp

/-- Helper: str.split always yields at least one part, so the parsed peak
list of a record is never produced empty (the `else 0` guard of line 54 is
unreachable). -/
theorem splitChar_ne_nil (sep : Char) (l : List Char) : splitChar sep l ≠ [] := by
  cases l with
  | nil => simp [splitChar]
  | cons c cs =>
      unfold splitChar
      cases h : splitChar sep cs with
      | nil => simp
      | cons t ts => dsimp; split <;> simp

/-- Helper: a successful parse yields one value per token. -/
theorem parseTokens_ok_length (ts : List (List Char)) (qs : List ℚ)
    (h : parseTokens ts = .ok qs) : qs.length = ts.length := by
  induction ts generalizing qs with
  | nil =>
      unfold parseTokens at h
      cases h
      rfl
  | cons t ts ih =>
      unfold parseTokens at h
      cases hf : parseFloat t with
      | none => rw [hf] at h; cases h
      | some q =>
          rw [hf] at h
          cases hr : parseTokens ts with
          | error e => rw [hr] at h; cases h
          | ok qs2 =>
              rw [hr] at h
              cases h
              simp [ih qs2 hr]

/-- C1: for a record whose parsed expected-shift list E is nonempty, the
matcher's score is the number of sample peaks lying within tolerance of some
expected peak, divided by the size of E; in particular E=[1.0, 2.0], S=[1.0],
tol=0.01 scores 0.5, and with tol=0 and E=[2.0] the sample [2.0] scores 1.0
while [2.0001] scores 0.0. -/
theorem C1_score_is_matched_sample_fraction :
    (∀ (S E : List ℚ) (tol : ℚ), E ≠ [] →
        scoreOf S E tol = (matchCount S E tol : ℚ) / (E.length : ℚ)) ∧
    parsePpmList "1.0;2.0" = .ok [1, 2] ∧
    scoreOf [1] [1, 2] (1 / 100) = 1 / 2 ∧
    scoreOf [2] [2] 0 = 1 ∧
    scoreOf [20001 / 10000] [2] 0 = 0 := by
  refine ⟨fun S E tol hE => ?_, by decide, by decide, by decide, by decide⟩
  simp [scoreOf, hE]

/-- C1 witness: the general conjunct applied at the spec's first example. -/
theorem C1_score_is_matched_sample_fraction_witness :
    scoreOf [1] [1, 2] (1 / 100) =
      (matchCount [1] [1, 2] (1 / 100) : ℚ) / (([1, 2] : List ℚ).length : ℚ) :=
  C1_score_is_matched_sample_fraction.1 [1] [1, 2] (1 / 100) (by decide)

/-- C2 counterexample: the claim says every score lies in [0, 1], but two
sample peaks 0.999 and 1.001 against the single expected peak 1.0 at
tolerance 0.01 both match, giving score 2. -/
theorem C2_counterexample_score_exceeds_one :
    scoreOf [999 / 1000, 1001 / 1000] [1] (1 / 100) = 2 ∧
    ¬ scoreOf [999 / 1000, 1001 / 1000] [1] (1 / 100) ≤ 1 := by
  constructor <;> decide

/-- C2 amended: the score is in [0, 1] provided the sample has no more peaks
than the record expects; in general it is only bounded by |S|/|E|, because
line 53 counts sample peaks while line 54 divides by the expected count. -/
theorem C2_amended_score_in_unit_interval (S E : List ℚ) (tol : ℚ)
    (h : S.length ≤ E.length) :
    0 ≤ scoreOf S E tol ∧ scoreOf S E tol ≤ 1 := by
  unfold scoreOf
  by_cases hE : E.isEmpty = true
  · simp [hE]
  · have hE2 : E.isEmpty = false := by simpa using hE
    simp only [hE2, Bool.false_eq_true, if_false]
    have hpos : (0 : ℚ) < (E.length : ℚ) := by
      have : E ≠ [] := by simpa [List.isEmpty_iff] using hE
      exact_mod_cast List.length_pos.mpr this
    constructor
    · exact div_nonneg (Nat.cast_nonneg _) (Nat.cast_nonneg _)
    · rw [div_le_one hpos]
      have hm : matchCount S E tol ≤ S.length := List.length_filter_le _ _
      exact_mod_cast le_trans hm h

/-- C2 witness: the amended bound at the spec's own example. -/
theorem C2_amended_score_in_unit_interval_witness :
    0 ≤ scoreOf [1] [1, 2] (1 / 100) ∧ scoreOf [1] [1, 2] (1 / 100) ≤ 1 :=
  C2_amended_score_in_unit_interval [1] [1, 2] (1 / 100) (by decide)

/-- C3 counterexample: for E=[1.0], S=[1.001, 0.999], tol=0.01 the code's
match count is 2, not the claimed 1: line 53 iterates over sample peaks, so
each duplicate near the same expected peak counts. -/
theorem C3_counterexample_match_count_is_two :
    matchCount [1001 / 1000, 999 / 1000] [1] (1 / 100) = 2 ∧
    matchCount [1001 / 1000, 999 / 1000] [1] (1 / 100) ≠ 1 := by
  constructor <;> decide

/-- C3 amended: the matcher counts per-sample-peak coverage (the number of
sample peaks having at least one expected peak within tolerance), so the
example yields match count 2 and score 2. -/
theorem C3_amended_counts_sample_peak_coverage :
    matchCount [1001 / 1000, 999 / 1000] [1] (1 / 100) = 2 ∧
    scoreOf [1001 / 1000, 999 / 1000] [1] (1 / 100) = 2 ∧
    ∀ (S E : List ℚ) (tol : ℚ),
      matchCount S E tol = S.countP (fun sp => decide (∃ e ∈ E, absq (sp - e) ≤ tol)) := by
  refine ⟨by decide, by decide, fun S E tol => ?_⟩
  unfold matchCount
  rw [List.countP_eq_length_filter]
  congr 1
  apply List.filter_congr
  intro sp _
  rw [Bool.eq_iff_iff]
  simp [List.any_eq_true]

/-- C4 (code bug): the parsed peak list is never empty (str.split yields at
least one token and every token must parse), so the guard of line 54 is
dead; on a record whose ppm_list field is the empty string the matcher does
not return score 0 but raises ValueError from float(""). -/
theorem C4_empty_expected_field_raises :
    parsePpmList "" = .error "" ∧
    (∀ (s : String) (E : List ℚ), parsePpmList s = .ok E → E ≠ []) ∧
    match_to_hmdb [0] [⟨"Glycine", "HMDB0000123", "", "", "", ""⟩] (1 / 50) =
      .error "" := by
  refine ⟨by decide, fun s E h => ?_, by decide⟩
  unfold parsePpmList at h
  have hlen := parseTokens_ok_length _ _ h
  intro hE
  rw [hE] at hlen
  exact splitChar_ne_nil ';' s.data (List.length_eq_zero.mp hlen.symm)

/-- C4 witness: the nonemptiness conjunct applied to a parsed record. -/
theorem C4_empty_expected_field_raises_witness : ([3 / 2] : List ℚ) ≠ [] :=
  C4_empty_expected_field_raises.2.1 "1.5" [3 / 2] (by decide)

/-- C5 counterexample: a record whose delimited field holds the unparsable
token abc is not kept with a reduced peak set: float raises and the whole
matcher call aborts with that token. -/
theorem C5_counterexample_unparsable_token_aborts :
    match_to_hmdb [1] [⟨"Alanine", "HMDB0000161", "", "", "1.0;abc", ""⟩] (1 / 50) =
      .error "abc" ∧
    parsePpmList "1.0;abc" = .error "abc" := by
  constructor <;> decide

/-- C5 amended: an unparsable expected-shift token is not skipped: whenever
any reference row's delimited field fails to parse, the entire matcher call
raises instead of producing results. -/
theorem C5_amended_unparsable_token_raises (S : List ℚ) (tol : ℚ)
    (rows : List RefRow)
    (h : ∃ row ∈ rows, ∃ t, parsePpmList row.ppm_list = .error t) :
    ∃ e, match_to_hmdb S rows tol = .error e := by
  obtain ⟨row, hmem, t, hparse⟩ := h
  suffices h2 : ∃ e, matchRows S tol rows = .error e by
    obtain ⟨e, he⟩ := h2
    exact ⟨e, by unfold match_to_hmdb; rw [he]⟩
  induction rows with
  | nil => cases hmem
  | cons r rs ih =>
      rcases List.mem_cons.mp hmem with heq | hmem2
      · subst heq
        refine ⟨t, ?_⟩
        unfold matchRows matchRowResult
        rw [hparse]
      · cases hr : matchRowResult S tol r with
        | error e => exact ⟨e, by unfold matchRows; rw [hr]⟩
        | ok mr =>
            obtain ⟨e, he⟩ := ih hmem2
            exact ⟨e, by unfold matchRows; rw [hr, he]⟩

/-- C5 witness: the amended statement at a concrete one-row table. -/
theorem C5_amended_unparsable_token_raises_witness :
    ∃ e, match_to_hmdb [1] [⟨"Valine", "HMDB0000883", "", "", "1.0;x", ""⟩] (1 / 50) =
      .error e :=
  C5_amended_unparsable_token_raises [1] (1 / 50)
    [⟨"Valine", "HMDB0000883", "", "", "1.0;x", ""⟩]
    ⟨⟨"Valine", "HMDB0000883", "", "", "1.0;x", ""⟩, by decide, "x", by decide⟩

/-- C6 counterexample: two records A and B in input order with equal scores
come out as [B, A]: the descending sort reverses an ascending argsort, which
reverses tied rows, so ties are not kept in original reference-table
order. -/
theorem C6_counterexample_equal_scores_reversed :
    match_to_hmdb [1]
        [⟨"A", "IDA", "", "", "1.0", ""⟩, ⟨"B", "IDB", "", "", "1.0", ""⟩] (1 / 100) =
      .ok [⟨"B", "IDB", "", "", 1, "1.0", "",
            "https://hmdb.ca/metabolites/IDB.png", "https://hmdb.ca/metabolites/IDB"⟩,
           ⟨"A", "IDA", "", "", 1, "1.0", "",
            "https://hmdb.ca/metabolites/IDA.png", "https://hmdb.ca/metabolites/IDA"⟩] := by
  decide

/-- C6 amended: successful matcher output is sorted by score descending and
is a permutation of the per-record results; ties however appear in reverse
of their reference-table order (the counterexample shows [A, B] becoming
[B, A]), not in original order. -/
theorem C6_amended_sorted_descending (S : List ℚ) (rows : List RefRow) (tol : ℚ)
    (rs : List MatchResult) (h : match_to_hmdb S rows tol = .ok rs) :
    rs.Sorted (fun a b => b.matchScore ≤ a.matchScore) ∧
    ∃ raw, matchRows S tol rows = .ok raw ∧ List.Perm rs raw := by
  unfold match_to_hmdb at h
  cases hm : matchRows S tol rows with
  | error e => rw [hm] at h; cases h
  | ok raw =>
      rw [hm] at h
      cases h
      haveI : IsTotal MatchResult (fun a b => a.matchScore ≤ b.matchScore) :=
        ⟨fun a b => le_total a.matchScore b.matchScore⟩
      haveI : IsTrans MatchResult (fun a b => a.matchScore ≤ b.matchScore) :=
        ⟨fun _ _ _ hab hbc => le_trans hab hbc⟩
      refine ⟨?_, raw, rfl, ?_⟩
      · unfold sortByScoreDesc
        have hs := List.sorted_insertionSort
          (fun a b : MatchResult => a.matchScore ≤ b.matchScore) raw
        exact List.pairwise_reverse.mpr hs
      · unfold sortByScoreDesc
        exact (List.reverse_perm _).trans (List.perm_insertionSort _ raw)

/-- C6 witness: the amended statement at a concrete two-record table with
distinct scores. -/
theorem C6_amended_sorted_descending_witness :
    ([⟨"C", "IDC", "", "", 1, "1.0", "",
        "https://hmdb.ca/metabolites/IDC.png", "https://hmdb.ca/metabolites/IDC"⟩,
      ⟨"D", "IDD", "", "", 0, "5.0", "",
        "https://hmdb.ca/metabolites/IDD.png", "https://hmdb.ca/metabolites/IDD"⟩] :
        List MatchResult).Sorted (fun a b => b.matchScore ≤ a.matchScore) ∧
    ∃ raw, matchRows [1] (1 / 100)
        [⟨"C", "IDC", "", "", "1.0", ""⟩, ⟨"D", "IDD", "", "", "5.0", ""⟩] = .ok raw ∧
      List.Perm
        [⟨"C", "IDC", "", "", 1, "1.0", "",
           "https://hmdb.ca/metabolites/IDC.png", "https://hmdb.ca/metabolites/IDC"⟩,
         ⟨"D", "IDD", "", "", 0, "5.0", "",
           "https://hmdb.ca/metabolites/IDD.png", "https://hmdb.ca/metabolites/IDD"⟩] raw :=
  C6_amended_sorted_descending [1]
    [⟨"C", "IDC", "", "", "1.0", ""⟩, ⟨"D", "IDD", "", "", "5.0", ""⟩] (1 / 100)
    _ (by decide)

/-- C7 counterexample: an unreadable but existing reference source is not
turned into an absent result: the loader catches only FileNotFoundError, so
a permission failure propagates instead of yielding None. -/
theorem C7_counterexample_unreadable_raises :
    load_hmdb (.error ReadError.permissionDenied) = .error ReadError.permissionDenied ∧
    load_hmdb (.error ReadError.permissionDenied) ≠ .ok none := by
  constructor <;> decide

/-- C7 amended: when the reference source is missing (FileNotFoundError) the
loader returns None without raising, and the callers degrade gracefully: the
comparison branch only shows the missing-file warning and the search block
is skipped; a successful read is passed through. -/
theorem C7_amended_missing_file_degrades (S : List ℚ) (tol : ℚ) (pat : String)
    (df : List RefRow) :
    load_hmdb (.error ReadError.fileNotFound) = .ok none ∧
    hmdbComparisonBranch none S tol = .noHmdbWarning ∧
    searchBox pat none = .skipped ∧
    load_hmdb (.ok df) = .ok (some df) := by
  refine ⟨rfl, rfl, ?_, rfl⟩
  unfold searchBox
  split <;> rfl

/-- C8: an uploaded file having none of the alias columns ppm, Shift,
Chemical Shift is rejected with the descriptive message and no further step
runs; when an alias is present, the first one found is renamed to the
canonical ppm column and processing continues. -/
theorem C8_required_column_check (cols : List String) :
    ((∀ c ∈ cols, c ∉ possible_ppm_cols) →
        ppmColumnStep cols = .rejected missingPpmColMsg) ∧
    (∀ c ∈ cols, c ∈ possible_ppm_cols →
      ∃ c0, detectPpmCol cols = some c0 ∧
        ppmColumnStep cols = .processed (cols.map (fun x => if x = c0 then "ppm" else x)) ∧
        "ppm" ∈ cols.map (fun x => if x = c0 then "ppm" else x)) := by
  constructor
  · intro hnone
    unfold ppmColumnStep
    have hd : detectPpmCol cols = none := by
      unfold detectPpmCol
      rw [List.find?_eq_none]
      intro x hx
      simpa using hnone x hx
    rw [hd]
  · intro c hc hcp
    cases hd : detectPpmCol cols with
    | none =>
        exfalso
        have hall := List.find?_eq_none.mp (by unfold detectPpmCol at hd; exact hd) c hc
        exact hall (by simpa using hcp)
    | some c0 =>
        refine ⟨c0, rfl, ?_, ?_⟩
        · unfold ppmColumnStep
          rw [hd]
        · have hc0 : c0 ∈ cols :=
            List.mem_of_find?_eq_some (by unfold detectPpmCol at hd; exact hd)
          exact List.mem_map.mpr ⟨c0, hc0, by simp⟩

/-- C8 witness: rejection on a file with no alias column and acceptance with
renaming on a file whose second column is Shift. -/
theorem C8_required_column_check_witness :
    ppmColumnStep ["foo"] = .rejected missingPpmColMsg ∧
    ∃ c0, detectPpmCol ["intensity", "Shift"] = some c0 ∧
      ppmColumnStep ["intensity", "Shift"] =
        .processed (["intensity", "Shift"].map (fun x => if x = c0 then "ppm" else x)) ∧
      "ppm" ∈ ["intensity", "Shift"].map (fun x => if x = c0 then "ppm" else x) :=
  ⟨(C8_required_column_check ["foo"]).1 (by decide),
   (C8_required_column_check ["intensity", "Shift"]).2 "Shift" (by decide) (by decide)⟩

/-- Helper: on success the matcher loop yields one result per reference
row. -/
theorem matchRows_ok_length (S : List ℚ) (tol : ℚ) (rows : List RefRow)
    (rs : List MatchResult) (h : matchRows S tol rows = .ok rs) :
    rs.length = rows.length := by
  induction rows generalizing rs with
  | nil =>
      unfold matchRows at h
      cases h
      rfl
  | cons r rows ih =>
      unfold matchRows at h
      cases hr : matchRowResult S tol r with
      | error e => rw [hr] at h; cases h
      | ok mr =>
          rw [hr] at h
          cases hm : matchRows S tol rows with
          | error e => rw [hm] at h; cases h
          | ok rs2 =>
              rw [hm] at h
              cases h
              simp [ih rs2 hm]

/-- Helper: every result of a successful loop comes from some reference
row. -/
theorem matchRows_ok_mem (S : List ℚ) (tol : ℚ) (rows : List RefRow)
    (rs : List MatchResult) (h : matchRows S tol rows = .ok rs) (r : MatchResult)
    (hr : r ∈ rs) : ∃ row ∈ rows, matchRowResult S tol row = .ok r := by
  induction rows generalizing rs with
  | nil =>
      unfold matchRows at h
      cases h
      cases hr
  | cons row0 rows ih =>
      unfold matchRows at h
      cases h0 : matchRowResult S tol row0 with
      | error e => rw [h0] at h; cases h
      | ok mr =>
          rw [h0] at h
          cases hm : matchRows S tol rows with
          | error e => rw [hm] at h; cases h
          | ok rs2 =>
              rw [hm] at h
              cases h
              rcases List.mem_cons.mp hr with heq | hmem
              · exact ⟨row0, List.mem_cons_self _ _, heq ▸ h0⟩
              · obtain ⟨row, hrow, hres⟩ := ih rs2 hm hmem
                exact ⟨row, List.mem_cons_of_mem _ hrow, hres⟩

/-- Helper: a successful per-row result records the parsed peaks, the
rounded score and the row identity fields. -/
theorem matchRowResult_ok (S : List ℚ) (tol : ℚ) (row : RefRow) (r : MatchResult)
    (h : matchRowResult S tol row = .ok r) :
    ∃ E, parsePpmList row.ppm_list = .ok E ∧
      r.matchScore = round3 (scoreOf S E tol) ∧ r.metabolite = row.name ∧
      r.hmdbId = row.hmdbId := by
  unfold matchRowResult at h
  cases hp : parsePpmList row.ppm_list with
  | error t => rw [hp] at h; cases h
  | ok E =>
      rw [hp] at h
      cases h
      exact ⟨E, rfl, rfl, rfl, rfl⟩

/-- C10 counterexample: a one-record table whose expected-shift field does
not parse produces no result rows at all (the matcher raises), so the output
does not contain one result per reference record for every table. -/
theorem C10_counterexample_no_rows_on_raise :
    match_to_hmdb [1] [⟨"Taurine", "HMDB0000251", "", "", "z", ""⟩] (1 / 50) =
      .error "z" := by
  decide

/-- C10 amended: whenever the matcher returns successfully (every record's
expected-shift field parses), it returns exactly one result per reference
record, score-0 records included, and each reported match score is the
computed score rounded to 3 decimal places. -/
theorem C10_amended_one_result_per_row (S : List ℚ) (rows : List RefRow)
    (tol : ℚ) (rs : List MatchResult) (h : match_to_hmdb S rows tol = .ok rs) :
    rs.length = rows.length ∧
    ∀ r ∈ rs, ∃ row ∈ rows, ∃ E, parsePpmList row.ppm_list = .ok E ∧
      r.matchScore = round3 (scoreOf S E tol) ∧ r.metabolite = row.name ∧
      r.hmdbId = row.hmdbId := by
  unfold match_to_hmdb at h
  cases hm : matchRows S tol rows with
  | error e => rw [hm] at h; cases h
  | ok raw =>
      rw [hm] at h
      cases h
      constructor
      · unfold sortByScoreDesc
        rw [List.length_reverse, List.length_insertionSort]
        exact matchRows_ok_length S tol rows raw hm
      · intro r hr
        have hmem : r ∈ raw := by
          unfold sortByScoreDesc at hr
          rw [List.mem_reverse, List.mem_insertionSort] at hr
          exact hr
        obtain ⟨row, hrow, hres⟩ := matchRows_ok_mem S tol rows raw hm r hmem
        obtain ⟨E, hE, hs, hn, hid⟩ := matchRowResult_ok S tol row r hres
        exact ⟨row, hrow, E, hE, hs, hn, hid⟩

/-- C10 witness: the amended statement at a concrete one-row table where the
score is one half. -/
theorem C10_amended_one_result_per_row_witness :
    ([⟨"Glucose", "IDG", "", "", 1 / 2, "1.0;3.0", "",
        "https://hmdb.ca/metabolites/IDG.png", "https://hmdb.ca/metabolites/IDG"⟩] :
      List MatchResult).length =
      ([⟨"Glucose", "IDG", "", "", "1.0;3.0", ""⟩] : List RefRow).length ∧
    ∀ r ∈ ([⟨"Glucose", "IDG", "", "", 1 / 2, "1.0;3.0", "",
              "https://hmdb.ca/metabolites/IDG.png", "https://hmdb.ca/metabolites/IDG"⟩] :
            List MatchResult),
      ∃ row ∈ ([⟨"Glucose", "IDG", "", "", "1.0;3.0", ""⟩] : List RefRow),
        ∃ E, parsePpmList row.ppm_list = .ok E ∧
          r.matchScore = round3 (scoreOf [1] E (1 / 100)) ∧ r.metabolite = row.name ∧
          r.hmdbId = row.hmdbId :=
  C10_amended_one_result_per_row [1] [⟨"Glucose", "IDG", "", "", "1.0;3.0", ""⟩]
    (1 / 100) _ (by decide)

end
